import Mathlib

/-!
Verification development for the Bajaj-HackRX-6.0 insurance-claims chat
frontend.  The definitions below are shallow embeddings of the TypeScript
source: the JSON data contracts declared in `types/chat.ts`
(the variant with optional fields, whose `InsuranceResponse` matches the
`/process-query` contract), the `formatInsuranceResponse` /
`handleSendMessage` / `handleFileUpload` logic of the chat page in
`MessagesArea.tsx`, the `handleFileSelect` validation of `ChatInput`,
the `handleExport` simulation of `ExportModal.tsx`, and the fetch wrappers
of `lib/api.ts`.  Machine behaviour that is inherently event-driven
(React state updates) is modelled as explicit state passing and a step
relation on a chat-page state.
-/

namespace HackRX

/-- A JSON value, the data model for the backend responses the frontend
consumes.  Objects keep their fields as an association list. -/
inductive Json where
  | null : Json
  | bool (b : Bool) : Json
  | num (q : ℚ) : Json
  | str (s : String) : Json
  | arr (elems : List Json) : Json
  | obj (fields : List (String × Json)) : Json
deriving Repr

/-- Field lookup on a JSON object (`none` on non-objects and absent keys). -/
def Json.getField : Json → String → Option Json
  | .obj fs, k => fs.lookup k
  | _, _ => none

/-- Is this JSON value a string? -/
def Json.isString : Json → Bool
  | .str _ => true
  | _ => false

/-- Is this JSON value a number? -/
def Json.isNumber : Json → Bool
  | .num _ => true
  | _ => false

/-- Is this JSON value a boolean? -/
def Json.isBoolean : Json → Bool
  | .bool _ => true
  | _ => false

/-- Is this JSON value an array all of whose elements are strings
(a TypeScript `string[]`)? -/
def Json.isStringArray : Json → Bool
  | .arr xs => xs.all Json.isString
  | _ => false

/-- Is this JSON value an object all of whose values are strings
(a TypeScript `{ [key: string]: string }`)? -/
def Json.isStringMap : Json → Bool
  | .obj fs => fs.all (fun kv => kv.2.isString)
  | _ => false

/-- Is this JSON value an object at all? -/
def Json.isObject : Json → Bool
  | .obj _ => true
  | _ => false

/-- A TypeScript optional field `k?: T`: the key is either absent or its
value satisfies `p`. -/
def optionalField (j : Json) (k : String) (p : Json → Bool) : Bool :=
  match j.getField k with
  | none => true
  | some v => p v

/-- A TypeScript required field `k: T`: the key is present and its value
satisfies `p`. -/
def requiredField (j : Json) (k : String) (p : Json → Bool) : Bool :=
  match j.getField k with
  | none => false
  | some v => p v

/-- The `additional_info` member type of `InsuranceResponse`
(`types/chat.ts`): `{ sources?: string[]; clauses?: {[key:string]: string};
[key: string]: any }` — an object whose `sources` field, when present, is a
string array and whose `clauses` field, when present, is a string map;
the index signature admits any further fields. -/
def isAdditionalInfo (j : Json) : Bool :=
  j.isObject
    && optionalField j "sources" Json.isStringArray
    && optionalField j "clauses" Json.isStringMap

/-- Well-formedness per the `InsuranceResponse` interface in
`types/chat.ts`: `decision: string`, `amount?: number`,
`justification: string`, `referenced_clauses?: string[]`,
`confidence_score?: number`, `additional_info?: {...}`. -/
def isInsuranceResponse (j : Json) : Bool :=
  requiredField j "decision" Json.isString
    && optionalField j "amount" Json.isNumber
    && requiredField j "justification" Json.isString
    && optionalField j "referenced_clauses" Json.isStringArray
    && optionalField j "confidence_score" Json.isNumber
    && optionalField j "additional_info" isAdditionalInfo

/-- Well-formedness per the `UploadResponse` interface in `types/chat.ts`:
`success: boolean`, `message: string`, `filename?: string`,
`file_id?: string`. -/
def isUploadResponse (j : Json) : Bool :=
  requiredField j "success" Json.isBoolean
    && requiredField j "message" Json.isString
    && optionalField j "filename" Json.isString
    && optionalField j "file_id" Json.isString

/-! ## Runtime data model

The parsed `/process-query` response as the chat page consumes it
(`formatInsuranceResponse` destructures `decision`, `amount`,
`justification`, `referenced_clauses`, `confidence_score`,
`additional_info`).  Optional interface fields become `Option`;
JavaScript numbers are modelled as rationals. -/

/-- The `additional_info` object as consumed at runtime: only its optional
`sources: string[]` member is read by the frontend. -/
structure AdditionalInfo where
  sources : Option (List String) := none
deriving Repr, DecidableEq

/-- A parsed `/process-query` response (interface `InsuranceResponse`). -/
structure InsuranceResponse where
  decision : String
  amount : Option ℚ := none
  justification : String
  referenced_clauses : Option (List String) := none
  confidence_score : Option ℚ := none
  additional_info : Option AdditionalInfo := none
deriving Repr, DecidableEq

/-- JavaScript `Array.prototype.join(sep)`. -/
def joinWith (sep : String) : List String → String
  | [] => ""
  | [x] => x
  | x :: y :: xs => x ++ sep ++ joinWith sep (y :: xs)

/-- JavaScript `Math.round`: round half away from zero is `⌊x + 1/2⌋` for
the non-negative scores at issue (JS rounds half towards +∞). -/
def jsRound (q : ℚ) : ℤ := ⌊q + 1 / 2⌋

/-- JavaScript `s.slice(-6)`: the last six characters (the whole string
when shorter). -/
def jsSliceLastSix (s : String) : String := s.drop (s.length - 6)

/-- JavaScript `String.prototype.trim`: strip leading and trailing
whitespace (structural over the character list). -/
def jsTrim (s : String) : String :=
  ⟨((s.data.dropWhile Char.isWhitespace).reverse.dropWhile Char.isWhitespace).reverse⟩

/-- JavaScript `Number.prototype.toLocaleString` as used on the claim
amount.  The exact locale grouping is presentation-only (no claim inspects
it); we render the plain decimal representation. -/
def toLocaleString (q : ℚ) : String := toString q

/-- The `**Decision:**` line of `formatInsuranceResponse`. -/
def decisionSection (data : InsuranceResponse) : String :=
  "**Decision:** " ++ data.decision ++ "\n\n"

/-- The `**Coverage Amount:**` block: emitted only under the source guard
`amount && amount > 0` (a JS-falsy `0` or an absent `amount` skips it). -/
def amountSection (data : InsuranceResponse) : String :=
  match data.amount with
  | none => ""
  | some a => if a ≠ 0 then (if 0 < a then "**Coverage Amount:** $" ++ toLocaleString a ++ "\n\n" else "") else ""

/-- The `**Analysis:**` block. -/
def analysisSection (data : InsuranceResponse) : String :=
  "**Analysis:**\n" ++ data.justification ++ "\n\n"

/-- The `**Policy References:**` block body for a given clause list:
one `• ` bullet per clause, joined by newlines. -/
def clausesSection (cs : List String) : String :=
  "**Policy References:**\n" ++ joinWith "\n" (cs.map (fun clause => "• " ++ clause)) ++ "\n\n"

/-- The clauses block of `formatInsuranceResponse`: emitted under the
source guard `referenced_clauses && referenced_clauses.length > 0`. -/
def referencedClausesPart (data : InsuranceResponse) : String :=
  match data.referenced_clauses with
  | none => ""
  | some cs => if 0 < cs.length then clausesSection cs else ""

/-- The `**Assessment Confidence:**` line for a (JS-truthy) score:
level High ≥ 0.9, Moderate ≥ 0.7, else Low, with `Math.round(score*100)`
percent. -/
def confidenceSection (c : ℚ) : String :=
  "**Assessment Confidence:** "
    ++ (if 9 / 10 ≤ c then "High Confidence"
        else if 7 / 10 ≤ c then "Moderate Confidence" else "Low Confidence")
    ++ " (" ++ toString (jsRound (c * 100)) ++ "%)\n\n"

/-- The confidence block of `formatInsuranceResponse`: emitted under the
source guard `if (confidence_score)` (absent or JS-falsy `0` skips it). -/
def confidencePart (data : InsuranceResponse) : String :=
  match data.confidence_score with
  | none => ""
  | some c => if c ≠ 0 then confidenceSection c else ""

/-- The `**Documentation Reviewed:**` block: emitted under the source
guard `additional_info?.sources && additional_info.sources.length > 0`. -/
def sourcesPart (data : InsuranceResponse) : String :=
  match data.additional_info with
  | none => ""
  | some info =>
    match info.sources with
    | none => ""
    | some ss =>
      if 0 < ss.length then
        "**Documentation Reviewed:**\n" ++ joinWith "\n" (ss.map (fun source => "• " ++ source)) ++ "\n\n"
      else ""

/-- The fixed trailing disclaimer of `formatInsuranceResponse`. -/
def disclaimerText : String :=
  "*This analysis is based on your current policy terms and conditions. For official determinations, please contact our claims department.*"

/-- `formatInsuranceResponse` from the chat page (`MessagesArea.tsx`):
successive `response +=` concatenation of the guarded sections, ending in
the disclaimer. -/
def formatInsuranceResponse (data : InsuranceResponse) : String :=
  decisionSection data ++ amountSection data ++ analysisSection data
    ++ referencedClausesPart data ++ confidencePart data ++ sourcesPart data
    ++ disclaimerText

/-! ## Chat page state machine

`ChatPage` keeps `messages : Message[]` and `isLoading : Bool` in React
state and passes `disabled = isLoading` to `ChatInput`.  Toasts are
recorded explicitly.  `inFlight` is instrumentation counting
`processInsuranceQuery` calls that have not yet resolved or rejected. -/

/-- A toast notification (`sonner`). -/
inductive Toast where
  | success (msg : String) : Toast
  | error (msg : String) : Toast
deriving Repr, DecidableEq

/-- Message roles per `types/chat.ts`. -/
inductive Role where
  | user : Role
  | assistant : Role
deriving Repr, DecidableEq

/-- A chat message per `types/chat.ts` (`id`, `role`, `content`,
`timestamp`, optional `insuranceData`).  Timestamps (`Date.now()`) are
modelled as naturals. -/
structure Message where
  id : String
  role : Role
  content : String
  timestamp : ℕ
  insuranceData : Option InsuranceResponse := none
deriving Repr, DecidableEq

/-- The user message `handleSendMessage` appends before the request:
id `Date.now()`, trimmed content. -/
def userMessage (content : String) (t : ℕ) : Message :=
  { id := toString t, role := .user, content := jsTrim content, timestamp := t }

/-- The assistant message appended when `processInsuranceQuery` resolves:
id `Date.now() + 1`, formatted content, the response as `insuranceData`. -/
def aiMessage (response : InsuranceResponse) (t : ℕ) : Message :=
  { id := toString (t + 1), role := .assistant
    , content := formatInsuranceResponse response, timestamp := t
    , insuranceData := some response }

/-- The assistant apology appended in the `catch` branch of
`handleSendMessage`: fixed text plus an `ERR-` reference built from the
last six digits of `Date.now()`. -/
def errorReplyMessage (t : ℕ) : Message :=
  { id := toString (t + 1), role := .assistant
    , content := "I apologize, but I\x27m experiencing technical difficulties processing your request. Please try again in a moment, or contact our support team if the issue persists.\n\n**Error Reference:** ERR-"
        ++ jsSliceLastSix (toString t)
    , timestamp := t }

/-- The assistant confirmation appended by `handleFileUpload` after a
successful `uploadDocument`. -/
def uploadMessage (filename : String) (t : ℕ) : Message :=
  { id := toString t, role := .assistant
    , content := "**Document Upload Successful**\n\nFile: \"" ++ filename
        ++ "\"\nStatus: Processed and indexed\nReference: DOC-" ++ jsSliceLastSix (toString t)
        ++ "\n\nYour document has been successfully added to your policy database and is now available for analysis and reference."
    , timestamp := t }

/-- A selected browser `File`: name, MIME type, size in bytes. -/
structure JsFile where
  name : String
  type : String
  size : ℕ
deriving Repr, DecidableEq

/-- The `disabled` attribute of the chat text input in `ChatInput`:
`disabled || isUploading`. -/
def chatTextInputDisabled (disabled isUploading : Bool) : Bool :=
  disabled || isUploading

/-- The `disabled` attribute of the send button in `ChatInput`:
`disabled || isUploading || (!input.trim() && !selectedFile)`. -/
def sendButtonDisabled (disabled isUploading : Bool) (input : String)
    (selectedFile : Option JsFile) : Bool :=
  disabled || isUploading || ((jsTrim input).isEmpty && selectedFile.isNone)

/-- The chat page state: the rendered message list, the `isLoading` flag,
and the in-flight query count (instrumentation, not a React state). -/
structure ChatState where
  messages : List Message
  isLoading : Bool
  inFlight : ℕ
deriving Repr, DecidableEq

/-- The initial chat page state: `useState<Message[]>([])`,
`useState(false)`. -/
def initialChatState : ChatState :=
  { messages := [], isLoading := false, inFlight := 0 }

/-- One user-visible transition of the chat page.
* `send`: the user submits the form; possible only when the send button is
  enabled (`sendButtonDisabled … = false`) and, per the guards in
  `handleSubmit`/`handleSendMessage`, the trimmed input is non-empty.
  Appends the user message, sets `isLoading`, and starts one query.
* `respond` / `fail`: the pending `processInsuranceQuery` promise resolves
  or rejects; appends the assistant reply (or apology) and clears
  `isLoading` in `finally`.
* `upload`: `handleFileUpload` succeeds and appends its confirmation
  (`isLoading` untouched).
* `uploadFail`: `handleFileUpload` fails; only a toast, no state change.
* `clear`: `clearHistory` empties the message list. -/
inductive Step : ChatState → ChatState → Prop where
  | send (s : ChatState) (input : String) (isUploading : Bool)
      (selectedFile : Option JsFile) (t : ℕ)
      (hEnabled : sendButtonDisabled s.isLoading isUploading input selectedFile = false)
      (hNonempty : jsTrim input ≠ "") :
      Step s { messages := s.messages ++ [userMessage input t]
             , isLoading := true, inFlight := s.inFlight + 1 }
  | respond (s : ChatState) (response : InsuranceResponse) (t : ℕ)
      (hPending : 0 < s.inFlight) :
      Step s { messages := s.messages ++ [aiMessage response t]
             , isLoading := false, inFlight := s.inFlight - 1 }
  | fail (s : ChatState) (t : ℕ) (hPending : 0 < s.inFlight) :
      Step s { messages := s.messages ++ [errorReplyMessage t]
             , isLoading := false, inFlight := s.inFlight - 1 }
  | upload (s : ChatState) (filename : String) (t : ℕ) :
      Step s { messages := s.messages ++ [uploadMessage filename t]
             , isLoading := s.isLoading, inFlight := s.inFlight }
  | uploadFail (s : ChatState) : Step s s
  | clear (s : ChatState) :
      Step s { messages := [], isLoading := s.isLoading, inFlight := s.inFlight }

/-- States the chat page can reach from its initial render. -/
inductive Reachable : ChatState → Prop where
  | init : Reachable initialChatState
  | step {s s' : ChatState} : Reachable s → Step s s' → Reachable s'

/-- The complete run of `handleSendMessage content` once its awaited
query has settled: `none` models a rejected `processInsuranceQuery`.
Returns the final message list, the final `isLoading`, and the toasts
shown. -/
structure SendRunResult where
  messages : List Message
  isLoading : Bool
  toasts : List Toast
deriving Repr, DecidableEq

/-- `handleSendMessage` (chat page in `MessagesArea.tsx`): early-returns
on blank input; otherwise appends the user message, then on resolution
appends the formatted assistant reply, and on rejection appends the
apology and toasts an error; `finally` clears `isLoading`. -/
def handleSendMessageRun (content : String) (messages : List Message)
    (outcome : Option InsuranceResponse) (t : ℕ) : SendRunResult :=
  if jsTrim content = "" then
    { messages := messages, isLoading := false, toasts := [] }
  else
    match outcome with
    | some response =>
      { messages := messages ++ [userMessage content t, aiMessage response t]
        , isLoading := false, toasts := [] }
    | none =>
      { messages := messages ++ [userMessage content t, errorReplyMessage t]
        , isLoading := false
        , toasts := [Toast.error "Unable to process your request at this time"] }

/-- `MessagesArea` (the chat message list component) renders one bubble
per message by mapping over `messages` in order; a bubble shows the
message role and content. -/
def renderBubbles (messages : List Message) : List (Role × String) :=
  messages.map (fun m => (m.role, m.content))

/-- The policy-references list items of the structured insurance card in
`MessagesArea`: rendered only under the guard
`referenced_clauses && referenced_clauses.length > 0`, one `<li>` per
clause, whose text is the clause itself. -/
def insuranceCardClauseItems (data : InsuranceResponse) : List String :=
  match data.referenced_clauses with
  | none => []
  | some cs => if 0 < cs.length then cs else []

/-! ## File selection (`handleFileSelect` in `ChatInput`) -/

/-- The allowed MIME types for document upload. -/
def allowedTypes : List String :=
  [ "application/pdf"
  , "application/msword"
  , "application/vnd.openxmlformats-officedocument.wordprocessingml.document"
  , "text/plain"
  , "image/jpeg"
  , "image/png" ]

/-- The 10MB size cap (`10 * 1024 * 1024` bytes). -/
def maxFileSize : ℕ := 10 * 1024 * 1024

/-- The state `handleFileSelect` touches: the pending `selectedFile`
React state, the file input element value, and the toasts shown. -/
structure FileSelectState where
  selectedFile : Option JsFile
  inputValue : String
  toasts : List Toast
deriving Repr, DecidableEq

/-- `handleFileSelect`: reads `e.target.files?.[0]`; returns unchanged on
no file; rejects a disallowed MIME type or an over-10MB file with an
error toast and `e.target.value = ""` (leaving the previously selected
pending file untouched); otherwise stores the file as `selectedFile` and
toasts success. -/
def handleFileSelect (chosen : Option JsFile) (prevSelected : Option JsFile)
    (prevValue : String) : FileSelectState :=
  match chosen with
  | none => { selectedFile := prevSelected, inputValue := prevValue, toasts := [] }
  | some file =>
    if ¬ allowedTypes.contains file.type then
      { selectedFile := prevSelected, inputValue := ""
        , toasts := [Toast.error "Please upload PDF, Word document, text file, or image"] }
    else if maxFileSize < file.size then
      { selectedFile := prevSelected, inputValue := ""
        , toasts := [Toast.error "File size must be less than 10MB"] }
    else
      { selectedFile := some file, inputValue := prevValue
        , toasts := [Toast.success ("File \"" ++ file.name ++ "\" selected")] }

/-! ## Export modal (`handleExport` in `ExportModal.tsx`) -/

/-- The export scope radio options. -/
inductive ExportScope where
  | all | selected | recent | custom
deriving Repr, DecidableEq

/-- The content filter checkboxes. -/
structure ContentFilters where
  timestamps : Bool
  userMessages : Bool
  aiResponses : Bool
  attachments : Bool
deriving Repr, DecidableEq

/-- The PDF layout style options. -/
inductive FormatStyle where
  | professional | transcript | summary
deriving Repr, DecidableEq

/-- The document customization options. -/
structure Customization where
  claimNumber : String
  policyNumber : String
  includeHeader : Bool
  includeFooter : Bool
  pageNumbers : Bool
deriving Repr, DecidableEq

/-- The observable effects of one `handleExport` run: every value passed
to `setExportProgress` in order, the number of network requests issued and
files written, whether the success state was shown, and whether `onClose`
was called. -/
structure ExportRun where
  progressValues : List ℕ
  networkRequests : ℕ
  filesWritten : ℕ
  completeShown : Bool
  modalClosed : Bool
deriving Repr, DecidableEq

/-- The four simulated step labels of `handleExport`. -/
def exportSteps : List String :=
  ["Preparing PDF...", "Formatting content...", "Adding customizations...", "Finalizing document..."]

/-- `handleExport`: resets progress to 0, then for each of the four
simulated steps waits 800ms and sets progress to `(i + 1) * 25`; issues no
fetch and writes no file; then shows the success state and, after 2s,
closes the modal.  It reads none of the messages or options. -/
def handleExport (_messages : List Message) (_scope : ExportScope)
    (_filters : ContentFilters) (_style : FormatStyle)
    (_custom : Customization) : ExportRun :=
  { progressValues := 0 :: (List.range exportSteps.length).map (fun i => (i + 1) * 25)
  , networkRequests := 0
  , filesWritten := 0
  , completeShown := true
  , modalClosed := true }

/-! ## API client (`lib/api.ts`) -/

/-- An HTTP response as `fetch` presents it to the client code: the `ok`
flag, the status code, the body as text, and the body as parsed JSON. -/
structure HttpResponse where
  ok : Bool
  status : ℕ
  bodyText : String
  body : Json

/-- `ApiService.request`: throws `API Error: <status> - <body text>` when
`!response.ok`, otherwise returns `response.json()`. -/
def requestResult (r : HttpResponse) : Except String Json :=
  if r.ok = false then
    Except.error ("API Error: " ++ toString r.status ++ " - " ++ r.bodyText)
  else
    Except.ok r.body

/-- `uploadDocument`: throws `Upload Error: <status> - <body text>` when
`!response.ok`, otherwise returns `response.json()`. -/
def uploadDocumentResult (r : HttpResponse) : Except String Json :=
  if r.ok = false then
    Except.error ("Upload Error: " ++ toString r.status ++ " - " ++ r.bodyText)
  else
    Except.ok r.body

/-! ## Helper lemmas -/

/-- A satisfied required field yields its value and the value satisfies
the field predicate. -/
theorem requiredField_spec {j : Json} {k : String} {p : Json → Bool}
    (h : requiredField j k p = true) :
    ∃ v, j.getField k = some v ∧ p v = true := by
  unfold requiredField at h
  cases hv : j.getField k with
  | none => simp [hv] at h
  | some v => exact ⟨v, rfl, by simpa [hv] using h⟩

/-- A satisfied optional field constrains its value when present. -/
theorem optionalField_spec {j : Json} {k : String} {p : Json → Bool}
    (h : optionalField j k p = true) :
    ∀ v, j.getField k = some v → p v = true := by
  intro v hv
  unfold optionalField at h
  simpa [hv] using h

/-- Only `Json.bool` values are booleans. -/
theorem isBoolean_spec {v : Json} (h : v.isBoolean = true) : ∃ b, v = Json.bool b := by
  cases v <;> simp_all [Json.isBoolean]

/-- Only `Json.str` values are strings. -/
theorem isString_spec {v : Json} (h : v.isString = true) : ∃ s, v = Json.str s := by
  cases v <;> simp_all [Json.isString]

/-! ## Claim theorems -/

/-- C1: In the `/process-query` response contract (`InsuranceResponse`),
`decision` and `justification` are required strings while the remaining
fields are optional: an object carrying only those two fields is
well-formed, dropping either of them is not, and the frontend formatter
renders such a minimal response from just those two fields. -/
theorem insuranceResponse_minimal_fields (d jf : String) :
    isInsuranceResponse (Json.obj [("decision", Json.str d), ("justification", Json.str jf)]) = true
    ∧ isInsuranceResponse (Json.obj [("justification", Json.str jf)]) = false
    ∧ isInsuranceResponse (Json.obj [("decision", Json.str d)]) = false
    ∧ formatInsuranceResponse { decision := d, justification := jf } =
        "**Decision:** " ++ d ++ "\n\n" ++ "**Analysis:**\n" ++ jf ++ "\n\n" ++ disclaimerText := by
  refine ⟨rfl, rfl, rfl, ?_⟩
  simp only [formatInsuranceResponse, decisionSection, amountSection, analysisSection,
    referencedClausesPart, confidencePart, sourcesPart, String.empty_append,
    String.append_empty, String.append_assoc]

/-- C2: In the `/upload-document` response contract (`UploadResponse`),
`success` is a required boolean, `message` a required string and
`filename` an optional string: the two-field and three-field objects are
well-formed, and every well-formed upload result carries a boolean
`success`, a string `message`, and a string `filename` when present. -/
theorem uploadResponse_shape :
    (∀ (b : Bool) (m : String),
        isUploadResponse (Json.obj [("success", Json.bool b), ("message", Json.str m)]) = true)
    ∧ (∀ (b : Bool) (m fn : String),
        isUploadResponse
          (Json.obj [("success", Json.bool b), ("message", Json.str m), ("filename", Json.str fn)]) = true)
    ∧ (∀ j : Json, isUploadResponse j = true →
        (∃ b, j.getField "success" = some (Json.bool b))
        ∧ (∃ m, j.getField "message" = some (Json.str m))
        ∧ (∀ v, j.getField "filename" = some v → ∃ s, v = Json.str s)) := by
  refine ⟨fun b m => rfl, fun b m fn => rfl, fun j h => ?_⟩
  unfold isUploadResponse at h
  simp only [Bool.and_eq_true] at h
  obtain ⟨⟨⟨hsucc, hmsg⟩, hfn⟩, -⟩ := h
  refine ⟨?_, ?_, ?_⟩
  · obtain ⟨v, hv, hb⟩ := requiredField_spec hsucc
    obtain ⟨b, rfl⟩ := isBoolean_spec hb
    exact ⟨b, hv⟩
  · obtain ⟨v, hv, hs⟩ := requiredField_spec hmsg
    obtain ⟨s, rfl⟩ := isString_spec hs
    exact ⟨s, hv⟩
  · intro v hv
    exact isString_spec (optionalField_spec hfn v hv)

/-- C2 witness: a concrete well-formed upload result. -/
theorem uploadResponse_shape_witness :
    (∃ b, (Json.obj [("success", Json.bool true), ("message", Json.str "uploaded"), ("filename", Json.str "a.pdf")]).getField "success" = some (Json.bool b))
    ∧ (∃ m, (Json.obj [("success", Json.bool true), ("message", Json.str "uploaded"), ("filename", Json.str "a.pdf")]).getField "message" = some (Json.str m))
    ∧ (∀ v, (Json.obj [("success", Json.bool true), ("message", Json.str "uploaded"), ("filename", Json.str "a.pdf")]).getField "filename" = some v → ∃ s, v = Json.str s) :=
  uploadResponse_shape.2.2
    (Json.obj [("success", Json.bool true), ("message", Json.str "uploaded"), ("filename", Json.str "a.pdf")])
    (by decide)

/-- C7: `handleExport` is a mock-up: for every message list and every
combination of scope, filters, layout style and customization it issues
no network request, writes no file, steps the progress through exactly
25, 50, 75, 100 over the four simulated steps (after the initial reset
to 0), then shows success and closes the modal. -/
theorem handleExport_is_mock (msgs : List Message) (scope : ExportScope)
    (filters : ContentFilters) (style : FormatStyle) (custom : Customization) :
    handleExport msgs scope filters style custom =
      { progressValues := [0, 25, 50, 75, 100], networkRequests := 0
        , filesWritten := 0, completeShown := true, modalClosed := true }
    ∧ (handleExport msgs scope filters style custom).progressValues.tail = [25, 50, 75, 100] :=
  ⟨rfl, rfl⟩

/-- C10: the API client returns the parsed body exactly when the response
is ok and throws an error naming the status code and the body text
exactly when it is not — for both `request` and `uploadDocument`, with no
other outcome. -/
theorem api_raises_exactly_on_not_ok (st : ℕ) (bt : String) (b : Json) :
    requestResult ⟨true, st, bt, b⟩ = Except.ok b
    ∧ requestResult ⟨false, st, bt, b⟩
        = Except.error ("API Error: " ++ toString st ++ " - " ++ bt)
    ∧ uploadDocumentResult ⟨true, st, bt, b⟩ = Except.ok b
    ∧ uploadDocumentResult ⟨false, st, bt, b⟩
        = Except.error ("Upload Error: " ++ toString st ++ " - " ++ bt)
    ∧ (∀ r : HttpResponse, (∃ e, requestResult r = Except.error e) ↔ r.ok = false)
    ∧ (∀ r : HttpResponse, (∃ e, uploadDocumentResult r = Except.error e) ↔ r.ok = false) := by
  refine ⟨rfl, rfl, rfl, rfl, fun r => ?_, fun r => ?_⟩ <;>
    cases hok : r.ok <;> simp [requestResult, uploadDocumentResult, hok]

/-- C3 counterexample: when a pending file is already selected and the
user picks a file with a disallowed MIME type, `handleFileSelect` rejects
it with an error toast and clears the file input — but the previously
selected pending file remains, so the rejection does not leave "no
pending file" as claimed. -/
theorem handleFileSelect_keeps_previous_pending :
    (handleFileSelect (some { name := "notes.exe", type := "application/x-msdownload", size := 100 })
        (some { name := "policy.pdf", type := "application/pdf", size := 100 }) "notes.exe")
      = { selectedFile := some { name := "policy.pdf", type := "application/pdf", size := 100 }
        , inputValue := ""
        , toasts := [Toast.error "Please upload PDF, Word document, text file, or image"] }
    ∧ (handleFileSelect (some { name := "notes.exe", type := "application/x-msdownload", size := 100 })
        (some { name := "policy.pdf", type := "application/pdf", size := 100 }) "notes.exe").selectedFile
      ≠ none := by
  refine ⟨by decide, by decide⟩

/-- C3 (amended): `handleFileSelect` accepts a chosen file — stores it as
the pending file with a success toast — if and only if its MIME type is
allowed and its size is at most 10MB; otherwise it shows an error toast
and clears the file input, leaving the previously pending file
unchanged (in particular no pending file when none was selected
before). -/
theorem handleFileSelect_validation (f : JsFile) (prev : Option JsFile) (v : String) :
    (((handleFileSelect (some f) prev v).selectedFile = some f
        ∧ (handleFileSelect (some f) prev v).toasts
            = [Toast.success ("File \"" ++ f.name ++ "\" selected")])
      ↔ (f.type ∈ allowedTypes ∧ f.size ≤ maxFileSize))
    ∧ (¬ (f.type ∈ allowedTypes ∧ f.size ≤ maxFileSize) →
        (handleFileSelect (some f) prev v).selectedFile = prev
        ∧ (handleFileSelect (some f) prev v).inputValue = ""
        ∧ ∃ msg, (handleFileSelect (some f) prev v).toasts = [Toast.error msg]) := by
  by_cases hty : f.type ∈ allowedTypes
  · by_cases hsz : f.size ≤ maxFileSize
    · constructor
      · simp [handleFileSelect, hty, hsz, Nat.not_lt.mpr hsz, List.elem_iff]
      · intro h; exact absurd ⟨hty, hsz⟩ h
    · constructor
      · simp [handleFileSelect, hty, hsz, Nat.lt_of_not_le hsz, List.elem_iff]
      · intro _
        simp [handleFileSelect, hty, Nat.lt_of_not_le hsz, List.elem_iff]
  · constructor
    · simp [handleFileSelect, hty, List.elem_iff]
    · intro _
      simp [handleFileSelect, hty, List.elem_iff]

/-- C3 witness: the theorem applied at a rejected file over a previously
pending file, and at an accepted fresh file. -/
theorem handleFileSelect_validation_witness :
    ((handleFileSelect (some { name := "notes.exe", type := "application/x-msdownload", size := 100 })
        (some { name := "policy.pdf", type := "application/pdf", size := 100 }) "x").selectedFile
      = some { name := "policy.pdf", type := "application/pdf", size := 100 }
      ∧ (handleFileSelect (some { name := "notes.exe", type := "application/x-msdownload", size := 100 })
          (some { name := "policy.pdf", type := "application/pdf", size := 100 }) "x").inputValue = ""
      ∧ ∃ msg, (handleFileSelect (some { name := "notes.exe", type := "application/x-msdownload", size := 100 })
          (some { name := "policy.pdf", type := "application/pdf", size := 100 }) "x").toasts
            = [Toast.error msg])
    ∧ ((handleFileSelect (some { name := "claim.pdf", type := "application/pdf", size := 2048 })
        none "claim.pdf").selectedFile = some { name := "claim.pdf", type := "application/pdf", size := 2048 }
      ∧ (handleFileSelect (some { name := "claim.pdf", type := "application/pdf", size := 2048 })
          none "claim.pdf").toasts = [Toast.success "File \"claim.pdf\" selected"]) :=
  ⟨(handleFileSelect_validation { name := "notes.exe", type := "application/x-msdownload", size := 100 }
      (some { name := "policy.pdf", type := "application/pdf", size := 100 }) "x").2 (by decide),
   (handleFileSelect_validation { name := "claim.pdf", type := "application/pdf", size := 2048 }
      none "claim.pdf").1.mpr (by decide)⟩

/-- The loading flag counts the in-flight queries exactly: one while
`isLoading`, none otherwise.  Preserved by every chat-page transition. -/
theorem step_loading_invariant {s s' : ChatState} (h : Step s s')
    (hs : s.inFlight = if s.isLoading then 1 else 0) :
    s'.inFlight = if s'.isLoading then 1 else 0 := by
  cases h with
  | send input isUploading selectedFile t hEnabled hNonempty =>
    have hL : s.isLoading = false := by
      cases hb : s.isLoading
      · rfl
      · rw [hb] at hEnabled; simp [sendButtonDisabled] at hEnabled
    rw [hL] at hs
    simp at hs ⊢
    omega
  | respond response t hPending =>
    rcases Bool.eq_false_or_eq_true s.isLoading with hb | hb <;>
      rw [hb] at hs <;> simp at hs ⊢ <;> omega
  | fail t hPending =>
    rcases Bool.eq_false_or_eq_true s.isLoading with hb | hb <;>
      rw [hb] at hs <;> simp at hs ⊢ <;> omega
  | upload filename t => simpa using hs
  | uploadFail => exact hs
  | clear => simpa using hs

/-- Every reachable chat-page state satisfies the loading invariant. -/
theorem reachable_loading_invariant :
    ∀ s : ChatState, Reachable s → s.inFlight = if s.isLoading then 1 else 0 := by
  intro s h
  induction h with
  | init => rfl
  | step _ hstep ih => exact step_loading_invariant hstep ih

/-- C4: in every reachable chat-page state, at most one query is in
flight; while `isLoading` the chat text input and the send button are
disabled (so no new message can be submitted), and exactly one query is
pending; once `isLoading` clears, none is. -/
theorem loading_disables_input_single_flight (s : ChatState) (hr : Reachable s) :
    s.inFlight ≤ 1
    ∧ (s.isLoading = true →
        ∀ (isUploading : Bool) (input : String) (selectedFile : Option JsFile),
          chatTextInputDisabled s.isLoading isUploading = true
          ∧ sendButtonDisabled s.isLoading isUploading input selectedFile = true)
    ∧ (s.isLoading = true → s.inFlight = 1)
    ∧ (s.isLoading = false → s.inFlight = 0) := by
  have hinv := reachable_loading_invariant s hr
  refine ⟨?_, ?_, ?_, ?_⟩
  · rcases Bool.eq_false_or_eq_true s.isLoading with hb | hb <;> simp [hb] at hinv <;> omega
  · intro hl isUploading input selectedFile
    simp [chatTextInputDisabled, sendButtonDisabled, hl]
  · intro hl; simpa [hl] using hinv
  · intro hl; simpa [hl] using hinv

/-- C4 witness: the state reached after submitting one query. -/
theorem loading_disables_input_single_flight_witness :
    ((⟨[userMessage "hi" 0], true, 1⟩ : ChatState).inFlight ≤ 1
    ∧ ((⟨[userMessage "hi" 0], true, 1⟩ : ChatState).isLoading = true →
        ∀ (isUploading : Bool) (input : String) (selectedFile : Option JsFile),
          chatTextInputDisabled (⟨[userMessage "hi" 0], true, 1⟩ : ChatState).isLoading isUploading = true
          ∧ sendButtonDisabled (⟨[userMessage "hi" 0], true, 1⟩ : ChatState).isLoading isUploading input selectedFile = true)
    ∧ ((⟨[userMessage "hi" 0], true, 1⟩ : ChatState).isLoading = true →
        (⟨[userMessage "hi" 0], true, 1⟩ : ChatState).inFlight = 1)
    ∧ ((⟨[userMessage "hi" 0], true, 1⟩ : ChatState).isLoading = false →
        (⟨[userMessage "hi" 0], true, 1⟩ : ChatState).inFlight = 0)) :=
  loading_disables_input_single_flight ⟨[userMessage "hi" 0], true, 1⟩
    (Reachable.step Reachable.init
      (Step.send initialChatState "hi" false none 0 (by decide) (by decide)))

/-- C5: every chat-page transition either appends exactly one message at
the end of the list (sending, receiving a response or error reply,
confirming an upload), leaves the list unchanged, or is the explicit
clear-history action; and `MessagesArea` renders the i-th bubble from the
i-th message, preserving arrival order. -/
theorem messages_append_only_rendered_in_order :
    (∀ s s' : ChatState, Step s s' →
        (∃ m, s'.messages = s.messages ++ [m])
        ∨ s'.messages = s.messages
        ∨ s'.messages = [])
    ∧ (∀ (msgs : List Message) (i : ℕ),
        (renderBubbles msgs)[i]? = (msgs[i]?).map (fun m => (m.role, m.content))) := by
  constructor
  · intro s s' h
    cases h with
    | send input isUploading selectedFile t hEnabled hNonempty => exact Or.inl ⟨_, rfl⟩
    | respond response t hPending => exact Or.inl ⟨_, rfl⟩
    | fail t hPending => exact Or.inl ⟨_, rfl⟩
    | upload filename t => exact Or.inl ⟨_, rfl⟩
    | uploadFail => exact Or.inr (Or.inl rfl)
    | clear => exact Or.inr (Or.inr rfl)
  · intro msgs i
    simp [renderBubbles]

/-- C5 witness: a concrete upload-confirmation transition appends. -/
theorem messages_append_only_witness :
    (∃ m, (⟨[uploadMessage "policy.pdf" 7], false, 0⟩ : ChatState).messages
        = initialChatState.messages ++ [m])
    ∨ (⟨[uploadMessage "policy.pdf" 7], false, 0⟩ : ChatState).messages
        = initialChatState.messages
    ∨ (⟨[uploadMessage "policy.pdf" 7], false, 0⟩ : ChatState).messages = [] :=
  messages_append_only_rendered_in_order.1 initialChatState
    ⟨[uploadMessage "policy.pdf" 7], false, 0⟩
    (Step.upload initialChatState "policy.pdf" 7)

/-- C6: when `processInsuranceQuery` rejects, `handleSendMessage` ends
with exactly the previous list plus the user message and an
assistant-role apology, one error toast, and the loading flag cleared —
nothing else changes. -/
theorem send_failure_appends_apology (content : String) (messages : List Message)
    (t : ℕ) (hNonempty : jsTrim content ≠ "") :
    handleSendMessageRun content messages none t =
      { messages := messages ++ [userMessage content t, errorReplyMessage t]
        , isLoading := false
        , toasts := [Toast.error "Unable to process your request at this time"] }
    ∧ (errorReplyMessage t).role = Role.assistant
    ∧ userMessage content t ∈ (handleSendMessageRun content messages none t).messages := by
  refine ⟨?_, rfl, ?_⟩ <;> simp [handleSendMessageRun, hNonempty]

/-- C6 witness: a concrete failing query run. -/
theorem send_failure_appends_apology_witness :
    (handleSendMessageRun "hello" [] none 0 =
      { messages := [userMessage "hello" 0, errorReplyMessage 0]
        , isLoading := false
        , toasts := [Toast.error "Unable to process your request at this time"] }
    ∧ (errorReplyMessage 0).role = Role.assistant
    ∧ userMessage "hello" 0 ∈ (handleSendMessageRun "hello" [] none 0).messages) :=
  send_failure_appends_apology "hello" [] 0 (by decide)

/-- Each list element appears verbatim, bulleted, in the joined bullet
list. -/
theorem joinWith_bullet_mem (cs : List String) (c : String) (hc : c ∈ cs) :
    ∃ p q, joinWith "\n" (cs.map (fun clause => "• " ++ clause)) = p ++ ("• " ++ c) ++ q := by
  induction cs with
  | nil => cases hc
  | cons x rest ih =>
    rcases List.mem_cons.mp hc with rfl | hmem
    · cases rest with
      | nil =>
        exact ⟨"", "", by simp [joinWith, String.empty_append, String.append_empty]⟩
      | cons y ys =>
        refine ⟨"", "\n" ++ joinWith "\n" ((y :: ys).map (fun clause => "• " ++ clause)), ?_⟩
        simp [joinWith, String.empty_append, String.append_assoc]
    · obtain ⟨p, q, hp⟩ := ih hmem
      cases rest with
      | nil => cases hmem
      | cons y ys =>
        refine ⟨("• " ++ x) ++ "\n" ++ p, q, ?_⟩
        simp only [List.map_cons] at hp ⊢
        simp only [joinWith]
        rw [hp]
        simp [String.append_assoc]

/-- C8: referenced clauses are passed through verbatim: when
`referenced_clauses` is a non-empty list `cs`, the formatted assistant
message contains the `**Policy References:**` block whose body is one
`• ` bullet per clause (each clause appearing verbatim inside it), and
the structured card renders exactly `cs`, in order, as list items. -/
theorem referenced_clauses_verbatim (data : InsuranceResponse) (cs : List String)
    (hcs : data.referenced_clauses = some cs) (hne : cs ≠ []) :
    (∃ pre post, formatInsuranceResponse data = pre ++ clausesSection cs ++ post)
    ∧ clausesSection cs
        = "**Policy References:**\n"
          ++ joinWith "\n" (cs.map (fun clause => "• " ++ clause)) ++ "\n\n"
    ∧ (∀ c ∈ cs, ∃ p q,
        joinWith "\n" (cs.map (fun clause => "• " ++ clause)) = p ++ ("• " ++ c) ++ q)
    ∧ insuranceCardClauseItems data = cs := by
  have hlen : 0 < cs.length := List.length_pos.mpr hne
  refine ⟨?_, rfl, fun c hc => joinWith_bullet_mem cs c hc, ?_⟩
  · refine ⟨decisionSection data ++ amountSection data ++ analysisSection data,
      confidencePart data ++ sourcesPart data ++ disclaimerText, ?_⟩
    simp only [formatInsuranceResponse, referencedClausesPart, hcs, hlen, if_pos,
      String.append_assoc]
  · simp [insuranceCardClauseItems, hcs, hlen]

/-- C8 witness: a concrete response with two referenced clauses. -/
theorem referenced_clauses_verbatim_witness :
    (∃ pre post,
        formatInsuranceResponse
          { decision := "Approved", justification := "Covered"
            , referenced_clauses := some ["Clause 4.2", "Clause 7.1"] }
          = pre ++ clausesSection ["Clause 4.2", "Clause 7.1"] ++ post)
    ∧ clausesSection ["Clause 4.2", "Clause 7.1"]
        = "**Policy References:**\n"
          ++ joinWith "\n" (["Clause 4.2", "Clause 7.1"].map (fun clause => "• " ++ clause)) ++ "\n\n"
    ∧ (∀ c ∈ ["Clause 4.2", "Clause 7.1"], ∃ p q,
        joinWith "\n" (["Clause 4.2", "Clause 7.1"].map (fun clause => "• " ++ clause))
          = p ++ ("• " ++ c) ++ q)
    ∧ insuranceCardClauseItems
        { decision := "Approved", justification := "Covered"
          , referenced_clauses := some ["Clause 4.2", "Clause 7.1"] }
        = ["Clause 4.2", "Clause 7.1"] :=
  referenced_clauses_verbatim
    { decision := "Approved", justification := "Covered"
      , referenced_clauses := some ["Clause 4.2", "Clause 7.1"] }
    ["Clause 4.2", "Clause 7.1"] rfl (by decide)

/-- C9: `formatInsuranceResponse` drops JS-falsy zeros: an `amount` of 0
(respectively a `confidence_score` of 0) produces exactly the output of
the response with that field absent; and a score in (0, 1] yields the
confidence line with `Math.round(score * 100)` percent and level
High (≥ 0.9), Moderate (≥ 0.7) or Low. -/
theorem format_drops_zero_fields :
    (∀ (d jf : String) (rc : Option (List String)) (csc : Option ℚ)
        (ai : Option AdditionalInfo),
        formatInsuranceResponse ⟨d, some 0, jf, rc, csc, ai⟩
          = formatInsuranceResponse ⟨d, none, jf, rc, csc, ai⟩)
    ∧ (∀ (d jf : String) (a : Option ℚ) (rc : Option (List String))
        (ai : Option AdditionalInfo),
        formatInsuranceResponse ⟨d, a, jf, rc, some 0, ai⟩
          = formatInsuranceResponse ⟨d, a, jf, rc, none, ai⟩)
    ∧ (∀ (data : InsuranceResponse) (c : ℚ),
        data.confidence_score = some c → 0 < c → c ≤ 1 →
        (∃ pre post, formatInsuranceResponse data = pre ++ confidenceSection c ++ post)
        ∧ confidenceSection c
            = "**Assessment Confidence:** "
              ++ (if 9 / 10 ≤ c then "High Confidence"
                  else if 7 / 10 ≤ c then "Moderate Confidence" else "Low Confidence")
              ++ " (" ++ toString (jsRound (c * 100)) ++ "%)\n\n") := by
  refine ⟨?_, ?_, ?_⟩
  · intro d jf rc csc ai
    simp [formatInsuranceResponse, decisionSection, amountSection, analysisSection,
      referencedClausesPart, confidencePart, sourcesPart]
  · intro d jf a rc ai
    simp [formatInsuranceResponse, decisionSection, amountSection, analysisSection,
      referencedClausesPart, confidencePart, sourcesPart]
  · intro data c hc hpos _hle
    refine ⟨⟨decisionSection data ++ amountSection data ++ analysisSection data
        ++ referencedClausesPart data, sourcesPart data ++ disclaimerText, ?_⟩, rfl⟩
    simp only [formatInsuranceResponse, confidencePart, hc, ne_eq, hpos.ne', not_false_iff,
      if_true, String.append_assoc]

/-- C9 witness: a response with a confidence score of 1 (the top of the
(0, 1] range). -/
theorem format_drops_zero_fields_witness :
    (∃ pre post,
        formatInsuranceResponse
          { decision := "Approved", justification := "Covered"
            , confidence_score := some 1 }
          = pre ++ confidenceSection 1 ++ post)
    ∧ confidenceSection 1
        = "**Assessment Confidence:** "
          ++ (if (9 : ℚ) / 10 ≤ 1 then "High Confidence"
              else if (7 : ℚ) / 10 ≤ 1 then "Moderate Confidence" else "Low Confidence")
          ++ " (" ++ toString (jsRound ((1 : ℚ) * 100)) ++ "%)\n\n" :=
  format_drops_zero_fields.2.2
    { decision := "Approved", justification := "Covered", confidence_score := some 1 }
    1 rfl (by decide) (by decide)

end HackRX
